import Mathlib

/-!
Verification development for the gapbf repository (graph-based Android
pattern brute force).  The definitions below are a shallow embedding of
`src/gapbf/PathFinder.py` and `src/gapbf/PathHandler.py`:

* grid tables are transcribed from `PathFinder._graphs`;
* `generate_paths` / `PathFinder.iter` embed the generator in
  `PathFinder.__iter__` (the Python generator yields lazily; here the
  traversal is materialised as the list of yields, in yield order);
* `dfs_counter` / `PathFinder.calculate_total_paths` embed
  `PathFinder._calculate_total_paths` (raising `ValueError` is modelled as
  `Except.error`);
* `process_path`, `dfs_helper` and `PathFinder.dfs` embed the consumer
  chain dispatch and `PathFinder.dfs`; a handler object is modelled by its
  `handle_path(path, total_paths)` function;
* the CSV attempt ledger of `PathHandler.py` is modelled as a list of
  rows (each row a list of string fields; the CSV layer quotes and
  unquotes fields so a field value round-trips exactly), file operations
  take an `io_ok` oracle, and a caught Python exception shows up as the
  `Except.error` branch of the modelled primitive being mapped back to
  `Except.ok` by the embedding of the `try/except` block.

The Python `str()` rendering of a list of strings (the canonical path
serialization used both by `csv.writer` via `LogHandler.handle_path` and
by the `str(path)` membership test in `ADBHandler.handle_path`) is
embedded as `pyRepr`.

Node identifiers are `String`, as in the source, which standardises every
node to `str(node)`.  Python sets of nodes are modelled as lists used
only through membership.  Recursion over the DFS tree is by fuel; every
entry point passes fuel `path_max_len`, which the guard
`path.length + 1 < path_max_len` (identical to the
`len(path) < self._path_max_len` test, taken after the append) never
exhausts, as the fuel-irrelevance lemmas below prove.
-/

/-- Grid node list for size 3, from `PathFinder._graphs[3]["graph"]`. -/
def graph3 : List String :=
  ["1", "2", "3", "4", "5", "6", "7", "8", "9"]

/-- Adjacency table for size 3, from `PathFinder._graphs[3]["neighbors"]`. -/
def neighbors3 : List (String × List String) := [
  ("1", ["2", "4", "5"]),
  ("2", ["1", "3", "4", "5", "6"]),
  ("3", ["2", "5", "6"]),
  ("4", ["1", "2", "5", "7", "8"]),
  ("5", ["1", "2", "3", "4", "6", "7", "8", "9"]),
  ("6", ["2", "3", "5", "8", "9"]),
  ("7", ["4", "5", "8"]),
  ("8", ["4", "5", "6", "7", "9"]),
  ("9", ["5", "6", "8"])]

/-- Grid node list for size 4, from `PathFinder._graphs[4]["graph"]`. -/
def graph4 : List String :=
  ["1", "2", "3", "4", "5", "6", "7", "8", "9", ":", ";", "<", "=", ">", "?", "@"]

/-- Adjacency table for size 4, from `PathFinder._graphs[4]["neighbors"]`. -/
def neighbors4 : List (String × List String) := [
  ("1", ["2", "5", "6"]),
  ("2", ["1", "3", "5", "6", "7"]),
  ("3", ["2", "4", "6", "7", "8"]),
  ("4", ["3", "7", "8"]),
  ("5", ["1", "2", "6", "9", ":"]),
  ("6", ["1", "2", "3", "5", "7", "9", ":", ";"]),
  ("7", ["2", "3", "4", "6", "8", ":", ";", "<"]),
  ("8", ["3", "4", "7", ";", "<"]),
  ("9", ["5", "6", ":", "=", ">"]),
  (":", ["5", "6", "7", "9", ";", "=", ">", "?"]),
  (";", ["6", "7", "8", ":", "<", ">", "?", "@"]),
  ("<", ["7", "8", ";", "?", "@"]),
  ("=", ["9", ":", ">"]),
  (">", ["9", ":", ";", "=", "?"]),
  ("?", [":", ";", "<", ">", "@"]),
  ("@", [";", "<", "?"])]

/-- Grid node list for size 5, from `PathFinder._graphs[5]["graph"]`. -/
def graph5 : List String :=
  ["1", "2", "3", "4", "5", "6", "7", "8", "9", ":", ";", "<", "=", ">", "?",
   "@", "A", "B", "C", "D", "E", "F", "G", "H", "I"]

/-- Adjacency table for size 5, from `PathFinder._graphs[5]["neighbors"]`. -/
def neighbors5 : List (String × List String) := [
  ("1", ["2", "6", "7"]),
  ("2", ["1", "3", "6", "7", "8"]),
  ("3", ["2", "4", "7", "8", "9"]),
  ("4", ["3", "5", "8", "9", ":"]),
  ("5", ["4", "9", ":"]),
  ("6", ["1", "2", "7", ";", "<"]),
  ("7", ["1", "2", "3", "6", "8", ";", "<", "="]),
  ("8", ["2", "3", "4", "7", "9", "<", "=", ">"]),
  ("9", ["3", "4", "5", "8", ":", "=", ">", "?"]),
  (":", ["4", "5", "9", ">", "?"]),
  (";", ["6", "7", "<", "@", "A"]),
  ("<", ["6", "7", "8", ";", "=", "@", "A", "B"]),
  ("=", ["7", "8", "9", "<", ">", "A", "B", "C"]),
  (">", ["8", "9", ":", "=", "?", "B", "C", "D"]),
  ("?", ["9", ":", ">", "C", "D"]),
  ("@", [";", "<", "A", "E", "F"]),
  ("A", [";", "<", "=", "@", "B", "E", "F", "G"]),
  ("B", ["<", "=", ">", "A", "C", "F", "G", "H"]),
  ("C", ["=", ">", "?", "B", "D", "G", "H", "I"]),
  ("D", [">", "?", "C", "H", "I"]),
  ("E", ["@", "A", "F"]),
  ("F", ["@", "A", "B", "E", "G"]),
  ("G", ["A", "B", "C", "F", "H"]),
  ("H", ["B", "C", "D", "G", "I"]),
  ("I", ["C", "D", "H"])]

/-- Grid node list for size 6, from `PathFinder._graphs[6]["graph"]`. -/
def graph6 : List String :=
  ["1", "2", "3", "4", "5", "6", "7", "8", "9", ":", ";", "<", "=", ">", "?",
   "@", "A", "B", "C", "D", "E", "F", "G", "H", "I", "J", "K", "L", "M", "N",
   "O", "P", "Q", "R", "S", "T"]

/-- Adjacency table for size 6, from `PathFinder._graphs[6]["neighbors"]`. -/
def neighbors6 : List (String × List String) := [
  ("1", ["2", "7", "8"]),
  ("2", ["1", "3", "7", "8", "9"]),
  ("3", ["2", "4", "8", "9", ":"]),
  ("4", ["3", "5", "9", ":", ";"]),
  ("5", ["4", "6", ":", ";", "<"]),
  ("6", ["5", ";", "<"]),
  ("7", ["1", "2", "8", "=", ">"]),
  ("8", ["1", "2", "3", "7", "9", "=", ">", "?"]),
  ("9", ["2", "3", "4", "8", ":", ">", "?", "@"]),
  (":", ["3", "4", "5", "9", ";", "?", "@", "A"]),
  (";", ["4", "5", "6", ":", "<", "@", "A", "B"]),
  ("<", ["5", "6", ";", "A", "B"]),
  ("=", ["7", "8", ">", "C", "D"]),
  (">", ["7", "8", "9", "=", "?", "C", "D", "E"]),
  ("?", ["8", "9", ":", ">", "@", "D", "E", "F"]),
  ("@", ["9", ":", ";", "?", "A", "E", "F", "G"]),
  ("A", [":", ";", "<", "@", "B", "F", "G", "H"]),
  ("B", [";", "<", "A", "G", "H"]),
  ("C", ["=", ">", "D", "I", "J"]),
  ("D", ["=", ">", "?", "C", "E", "I", "J", "K"]),
  ("E", [">", "?", "@", "D", "F", "J", "K", "L"]),
  ("F", ["?", "@", "A", "E", "G", "K", "L", "M"]),
  ("G", ["@", "A", "B", "F", "H", "L", "M", "N"]),
  ("H", ["A", "B", "G", "M", "N"]),
  ("I", ["C", "D", "J", "O", "P"]),
  ("J", ["C", "D", "E", "I", "K", "O", "P", "Q"]),
  ("K", ["D", "E", "F", "J", "L", "P", "Q", "R"]),
  ("L", ["E", "F", "G", "K", "M", "Q", "R", "S"]),
  ("M", ["F", "G", "H", "L", "N", "R", "S", "T"]),
  ("N", ["G", "H", "M", "S", "T"]),
  ("O", ["I", "J", "P"]),
  ("P", ["I", "J", "K", "O", "Q"]),
  ("Q", ["J", "K", "L", "P", "R"]),
  ("R", ["K", "L", "M", "Q", "S"]),
  ("S", ["L", "M", "N", "R", "T"]),
  ("T", ["M", "N", "S"])]

/-- Dictionary lookup `self._neighbors[node]`, realised over the stored
association list; nodes outside the table get `[]` (the source only ever
looks up nodes of the grid). -/
def lookupNb (table : List (String × List String)) (n : String) : List String :=
  match table.find? (fun e => e.1 = n) with
  | some e => e.2
  | none => []

/-- The catalog `PathFinder._graphs`: supported sizes 3, 4, 5, 6. -/
def graphs (grid_size : Nat) : Option (List String × List (String × List String)) :=
  match grid_size with
  | 3 => some (graph3, neighbors3)
  | 4 => some (graph4, neighbors4)
  | 5 => some (graph5, neighbors5)
  | 6 => some (graph6, neighbors6)
  | _ => none

/-- Embedding of a constructed `PathFinder` object: the fields set by
`PathFinder.__init__` after node standardisation.  `pre_nodes` models
`self._path_prefix`, `path_suffix` models `self._path_suffix`, and
`excluded_nodes` models the set `self._excluded_nodes` (used through
membership only). -/
structure PathFinder where
  graph : List String
  neighbors : String → List String
  path_min_len : Nat
  path_max_len : Nat
  path_max_node_distance : Nat
  pre_nodes : List String
  path_suffix : List String
  excluded_nodes : List String

/-- Embedding of `PathFinder.__init__`: unsupported grid sizes raise
`ValueError`, otherwise the fields are populated from the catalog.  Node
arguments are taken already in their standardised string form. -/
def mkPathFinder (grid_size path_min_len path_max_len path_max_node_distance : Nat)
    (pre suf excl : List String) : Except String PathFinder :=
  match graphs grid_size with
  | none => Except.error "Unsupported grid size"
  | some gn =>
      Except.ok
        { graph := gn.1
          neighbors := lookupNb gn.2
          path_min_len := path_min_len
          path_max_len := path_max_len
          path_max_node_distance := path_max_node_distance
          pre_nodes := pre
          path_suffix := suf
          excluded_nodes := excl }

/-- Suffix test of `PathFinder.__iter__`: with a non-empty configured
suffix, the trailing `len(suffix)` entries of the current path must equal
the suffix exactly (`path[-len(suffix):] == list(suffix)`); shorter paths
fail; an empty suffix always matches. -/
def suffix_ok (suf path2 : List String) : Bool :=
  if suf.isEmpty then true
  else if suf.length ≤ path2.length then
    path2.drop (path2.length - suf.length) == suf
  else false

/-- Embedding of the inner generator `generate_paths(node, path, visited)`
of `PathFinder.__iter__`.  The result list collects the yields in yield
order: the current path first (when long enough and suffix-matching),
then the recursive yields over non-excluded unvisited neighbors in stored
adjacency order.  `fuel` only bounds the recursion depth; the source
bounds it by the `len(path) < self._path_max_len` guard, which makes any
fuel of at least `max_len - path.length` equivalent (proved below). -/
def generate_paths (neighbors : String → List String) (excl : List String)
    (min_len max_len : Nat) (suf : List String) :
    Nat → String → List String → List String → List (List String)
  | fuel, node, path, visited =>
    let path2 := path ++ [node]
    let visited2 := node :: visited
    let yields := if min_len ≤ path2.length ∧ suffix_ok suf path2 = true then [path2] else []
    let children :=
      if path2.length < max_len then
        match fuel with
        | 0 => []
        | fuel' + 1 =>
          (neighbors node).flatMap fun nb =>
            if nb ∉ excl ∧ nb ∉ visited2 then
              generate_paths neighbors excl min_len max_len suf fuel' nb path2 visited2
            else []
      else []
    yields ++ children

/-- Embedding of `PathFinder.__iter__` as the full list of yielded paths:
with a non-empty prefix the traversal is seeded with every prefix node but
the last (path and visited-set alike) and generation starts from the last
prefix node; otherwise generation starts from every non-excluded grid node
in catalog order. -/
def PathFinder.iter (pf : PathFinder) : List (List String) :=
  match pf.pre_nodes with
  | [] =>
      pf.graph.flatMap fun node =>
        if node ∉ pf.excluded_nodes then
          generate_paths pf.neighbors pf.excluded_nodes pf.path_min_len pf.path_max_len
            pf.path_suffix pf.path_max_len node [] []
        else []
  | p :: ps =>
      generate_paths pf.neighbors pf.excluded_nodes pf.path_min_len pf.path_max_len
        pf.path_suffix pf.path_max_len ((p :: ps).getLastD "") ((p :: ps).dropLast)
        ((p :: ps).dropLast)

/-- Hit test of `PathFinder._calculate_total_paths`: the Python condition
`path[-1] in path_suffix or not path_suffix`, where `path_suffix` is the
SET of suffix nodes — membership of the last node, not equality of the
trailing sequence. -/
def counter_hit (sufSet : List String) (path2 : List String) : Bool :=
  (match path2.getLast? with
   | some x => sufSet.contains x
   | none => false) || sufSet.isEmpty

/-- Embedding of the inner `dfs_counter(node, path)` of
`PathFinder._calculate_total_paths`.  The nonlocal `visited` set is passed
explicitly (the source restores it exactly on return); the nonlocal
accumulator becomes the returned count. -/
def dfs_counter (neighbors : String → List String) (excl : List String)
    (min_len max_len : Nat) (sufSet : List String) :
    Nat → String → List String → List String → Nat
  | fuel, node, path, visited =>
    let path2 := path ++ [node]
    let visited2 := visited.insert node
    let here := if min_len ≤ path2.length ∧ counter_hit sufSet path2 = true then 1 else 0
    let below :=
      if path2.length < max_len then
        match fuel with
        | 0 => 0
        | fuel' + 1 =>
          ((neighbors node).map fun nb =>
            if nb ∉ excl ∧ nb ∉ visited2 then
              dfs_counter neighbors excl min_len max_len sufSet fuel' nb path2 visited2
            else 0).sum
      else 0
    here + below

/-- Raw total of `PathFinder._calculate_total_paths` before the zero
check: with no prefix the counter DFS is rooted at EVERY grid node (the
source does not filter excluded roots here); with a prefix it starts from
the last prefix node with `path = prefix[:-1]` and
`visited = set(prefix)` (all prefix nodes). -/
def PathFinder.calcRaw (pf : PathFinder) : Nat :=
  match pf.pre_nodes with
  | [] =>
      (pf.graph.map fun node =>
        dfs_counter pf.neighbors pf.excluded_nodes pf.path_min_len pf.path_max_len
          pf.path_suffix pf.path_max_len node [] []).sum
  | p :: ps =>
      dfs_counter pf.neighbors pf.excluded_nodes pf.path_min_len pf.path_max_len
        pf.path_suffix pf.path_max_len ((p :: ps).getLastD "") ((p :: ps).dropLast)
        (p :: ps)

/-- Embedding of `PathFinder._calculate_total_paths`: a zero total raises
`ValueError("No paths found with given configuration. Check constraints.")`,
modelled as `Except.error`. -/
def PathFinder.calculate_total_paths (pf : PathFinder) : Except String Nat :=
  let total := pf.calcRaw
  if total = 0 then
    Except.error "No paths found with given configuration. Check constraints."
  else Except.ok total

/-- A consumer is modelled by its `handle_path(path, total_paths)`
function. -/
abbrev Handler : Type := List String → Nat → Bool × Option (List String)

/-- Embedding of `PathFinder.process_path`: offer the path to each
registered handler in registration order, returning the first successful
result, or `(False, None)` when every handler fails. -/
def process_path (handlers : List Handler) (total : Nat) (path : List String) :
    Bool × Option (List String) :=
  match handlers with
  | [] => (false, none)
  | h :: rest =>
      let r := h path total
      if r.1 then (true, r.2) else process_path rest total path

/-- Early-exit loop over a node list: run `f` on each element in order and
return the first result whose success flag is set, as the
`for neighbor ...: if success: return` loops do. -/
def first_success (f : String → Bool × Option (List String)) :
    List String → Bool × Option (List String)
  | [] => (false, none)
  | x :: xs =>
      let r := f x
      if r.1 then r else first_success f xs

/-- Embedding of the inner `dfs_helper(node, path, visited)` of
`PathFinder.dfs`: dispatch the current path to the handler chain when it
is long enough and suffix-matching, and otherwise recurse into
non-excluded unvisited neighbors, returning the first success. -/
def dfs_helper (handlers : List Handler) (total : Nat)
    (neighbors : String → List String) (excl : List String)
    (min_len max_len : Nat) (suf : List String) :
    Nat → String → List String → List String → Bool × Option (List String)
  | fuel, node, path, visited =>
    let path2 := path ++ [node]
    let visited2 := node :: visited
    let here :=
      if min_len ≤ path2.length ∧ suffix_ok suf path2 = true then
        process_path handlers total path2
      else (false, none)
    if here.1 then here
    else if path2.length < max_len then
      match fuel with
      | 0 => (false, none)
      | fuel' + 1 =>
        first_success
          (fun nb =>
            if nb ∉ excl ∧ nb ∉ visited2 then
              dfs_helper handlers total neighbors excl min_len max_len suf fuel' nb
                path2 visited2
            else (false, none))
          (neighbors node)
    else (false, none)

/-- Embedding of `PathFinder.dfs`: seed from the prefix when present,
otherwise try every non-excluded grid node as a root; a handler success
returns `(True, result_path)`, exhaustion returns `(False, [])` (the
Python empty list, distinct from `None`, hence `some []`). -/
def PathFinder.dfs (pf : PathFinder) (handlers : List Handler) (total : Nat) :
    Bool × Option (List String) :=
  let r :=
    match pf.pre_nodes with
    | [] =>
        first_success
          (fun node =>
            if node ∉ pf.excluded_nodes then
              dfs_helper handlers total pf.neighbors pf.excluded_nodes pf.path_min_len
                pf.path_max_len pf.path_suffix pf.path_max_len node [] []
            else (false, none))
          pf.graph
    | p :: ps =>
        dfs_helper handlers total pf.neighbors pf.excluded_nodes pf.path_min_len
          pf.path_max_len pf.path_suffix pf.path_max_len ((p :: ps).getLastD "")
          ((p :: ps).dropLast) ((p :: ps).dropLast)
  if r.1 then r else (false, some [])

/-- The Python `str()` rendering of a list of strings, e.g.
`str(["1","2"])` — the canonical path serialization used by
`str(path)` in `ADBHandler.handle_path` and written to the CSV store by
`csv.writer` in `LogHandler.handle_path`.  The single-quote character is
built from its code point. -/
def squote : String := String.singleton (Char.ofNat 39)

/-- Python list repr of a list of strings. -/
def pyRepr (path : List String) : String :=
  "[" ++ String.intercalate ", " (path.map fun s => squote ++ s ++ squote) ++ "]"

/-- The backing CSV store of the ledger: either the file does not exist yet, or
it holds a list of rows, each row a list of string fields (the CSV layer
quotes on write and unquotes on read, so fields round-trip exactly). -/
inductive FileState where
  | missing
  | present (rows : List (List String))
deriving DecidableEq, Repr

/-- Appending one row with `open(..., "a")` + `csv.writer.writerow`:
creates the file when missing.  The `io_ok` oracle decides whether the
underlying file operation raises; a raise is the `Except.error` branch. -/
def csv_append (io_ok : Bool) (fs : FileState) (row : List String) :
    Except String FileState :=
  if io_ok then
    match fs with
    | FileState.missing => Except.ok (FileState.present [row])
    | FileState.present rows => Except.ok (FileState.present (rows ++ [row]))
  else Except.error "io error"

/-- Creating the store with its header row
`["timestamp", "path", "result", "info"]`, as `get_attempted_paths` does
when the file is missing. -/
def csv_create_with_header (io_ok : Bool) : Except String FileState :=
  if io_ok then Except.ok (FileState.present [["timestamp", "path", "result", "info"]])
  else Except.error "io error"

/-- Opening and reading all rows of an existing store. -/
def csv_read (io_ok : Bool) (rows : List (List String)) :
    Except String (List (List String)) :=
  if io_ok then Except.ok rows else Except.error "io error"

/-- Replay logic of `PathHandler.get_attempted_paths` over the rows of an
existing store: the first row is skipped when it is the header (first
field `"timestamp"`) or empty, otherwise its second field is collected
when present; every later row contributes its second field when it has at
least two fields (shorter rows are skipped with a warning).  The Python
set of collected keys is modelled as the list of collected fields, used
through membership. -/
def collect_attempted (rows : List (List String)) : List String :=
  match rows with
  | [] => []
  | first_row :: rest =>
      (if first_row ≠ [] ∧ first_row.headD "" ≠ "timestamp" ∧ 2 ≤ first_row.length
       then [first_row.getD 1 ""] else [])
      ++ rest.filterMap fun row =>
           if 2 ≤ row.length then some (row.getD 1 "") else none

/-- Embedding of `PathHandler.get_attempted_paths`: when the store file is
missing, try to create it with a header and return the empty set; when it
exists, try to read and replay it.  Both `try/except` blocks catch every
exception (logging an error) and fall through to returning whatever was
collected, so the embedded function never propagates the error branch of
the underlying file operation.  The result pairs the store state after the
call with the collected keys. -/
def PathHandler.get_attempted_paths (io_ok : Bool) (fs : FileState) :
    Except String (FileState × List String) :=
  match fs with
  | FileState.missing =>
      match csv_create_with_header io_ok with
      | Except.ok fs2 => Except.ok (fs2, [])
      | Except.error _ => Except.ok (fs, [])
  | FileState.present rows =>
      match csv_read io_ok rows with
      | Except.ok rs => Except.ok (fs, collect_attempted rs)
      | Except.error _ => Except.ok (fs, [])

/-- Embedding of `LogHandler.handle_path(timestamp, path, returncode,
info)`: append the record `[timestamp, str(path), returncode, info]` to
the CSV store under an exclusive lock and return `True`; any exception is
caught, logged, and turned into a `False` return — it does not propagate,
which is why the `Except.error` branch of `csv_append` is mapped back to
`Except.ok (fs, false)`. -/
def LogHandler.handle_path (io_ok : Bool) (fs : FileState) (timestamp : String)
    (path : List String) (returncode : String) (info : String) :
    Except String (FileState × Bool) :=
  match csv_append io_ok fs [timestamp, pyRepr path, returncode, info] with
  | Except.ok fs2 => Except.ok (fs2, true)
  | Except.error _ => Except.ok (fs, false)

/-- The configuration fields `ADBHandler.handle_path` consults. -/
structure AdbConfig where
  stdout_success : String
  stdout_normal : String
  echo_commands : Bool
  adb_timeout : Nat
  attempt_delay : Nat

/-- Outcome of the external `subprocess.run(["adb", ...])` call for one
candidate, supplied as an oracle: the call may time out
(`subprocess.TimeoutExpired`), fail to execute, or complete with a return
code and captured stdout. -/
inductive AdbOutcome where
  | timeout
  | execError (msg : String)
  | completed (returncode : Int) (stdout : String)

/-- The mutable state of an `ADBHandler`: the key set loaded from the
ledger at construction, the ledger store itself (written through the
nested `LogHandler`), and the attempt counter. -/
structure ADBState where
  attempted_paths : List String
  store : FileState
  current_path_number : Nat
deriving Repr

/-- The Python substring test `needle in hay`. -/
def strContains (hay needle : String) : Bool :=
  hay.toList.tails.any fun t => needle.toList.isPrefixOf t

/-- Embedding of `ADBHandler.handle_path`.  In source order: bump the
attempt counter; skip (returning `(False, None)`) when `str(path)` is
already among the attempted keys, dispatching nothing to the device;
otherwise run the external command — a timeout or execution error is
logged/printed and yields `(False, None)` with NOTHING appended to the
ledger; a completed call is appended to the ledger (stdout
newline-escaped) through the nested `LogHandler`, then classified:
return code 0 with the success marker in stdout yields `(True, path)`,
return code 0 with the normal-failure marker yields `(False, None)`
after the inter-attempt delay, and anything else is an unexpected
response yielding `(False, None)`. -/
def ADBHandler.handle_path (cfg : AdbConfig) (io_ok : Bool) (outcome : AdbOutcome)
    (timestamp : String) (st : ADBState) (path : List String) :
    ADBState × (Bool × Option (List String)) :=
  let st1 := { st with current_path_number := st.current_path_number + 1 }
  let path_str := pyRepr path
  if path_str ∈ st1.attempted_paths then
    (st1, (false, none))
  else
    match outcome with
    | AdbOutcome.timeout => (st1, (false, none))
    | AdbOutcome.execError _ => (st1, (false, none))
    | AdbOutcome.completed rc stdout =>
        let stdout_safe := stdout.replace "\n" "\\n"
        let st2 :=
          match LogHandler.handle_path io_ok st1.store timestamp path (toString rc)
              stdout_safe with
          | Except.ok (fs2, _) => { st1 with store := fs2 }
          | Except.error _ => st1
        if rc = 0 ∧ strContains stdout cfg.stdout_success then
          (st2, (true, some path))
        else if rc = 0 ∧ strContains stdout cfg.stdout_normal then
          (st2, (false, none))
        else
          (st2, (false, none))

/-- The concrete scenario of the spec: 3×3 grid, `min_length = max_length
= 4`, prefix `[1]`, suffix `[9]`, excluded `{5}` (all nodes in their
standardised string form). -/
def pf_c7 : PathFinder :=
  { graph := graph3
    neighbors := lookupNb neighbors3
    path_min_len := 4
    path_max_len := 4
    path_max_node_distance := 1
    pre_nodes := ["1"]
    path_suffix := ["9"]
    excluded_nodes := ["5"] }

/-- A constructor-accepted configuration on which the counter and the
enumerator disagree: 3×3 grid, `min_length = max_length = 2`, excluded
`{5}`, no prefix or suffix.  The enumerator yields the 24 adjacent pairs
avoiding node 5; the counter additionally roots its DFS at the excluded
node 5 and counts its 8 neighbor pairs. -/
def pf_c1 : PathFinder :=
  { graph := graph3
    neighbors := lookupNb neighbors3
    path_min_len := 2
    path_max_len := 2
    path_max_node_distance := 1
    pre_nodes := []
    path_suffix := []
    excluded_nodes := ["5"] }

/-- A configuration with zero valid paths that the zero-count check does
not detect: 3×3 grid, `min_length = max_length = 4`, suffix `[9, 1]`.
Node 1 is not adjacent to node 9, so no enumerated path can end with the
sequence 9, 1; but the counter only tests membership of the last node in
the suffix set, so it counts every length-4 path ending at node 9 or
node 1. -/
def pf_c6 : PathFinder :=
  { graph := graph3
    neighbors := lookupNb neighbors3
    path_min_len := 4
    path_max_len := 4
    path_max_node_distance := 1
    pre_nodes := []
    path_suffix := ["9", "1"]
    excluded_nodes := [] }

/-- A handler that matches every candidate, reporting result path A. -/
def handlerA : Handler := fun _ _ => (true, some ["1", "2", "6", "9"])

/-- A handler that matches every candidate, reporting result path B. -/
def handlerB : Handler := fun _ _ => (true, some ["1", "4", "8", "9"])

/-- A concrete ADB configuration for the ledger/timeout scenarios. -/
def cfg_adb : AdbConfig :=
  { stdout_success := "Data successfully decrypted"
    stdout_normal := "Failed to decrypt"
    echo_commands := true
    adb_timeout := 30
    attempt_delay := 0 }

/-- A fresh ADB handler state: nothing attempted, empty existing store. -/
def st_fresh : ADBState :=
  { attempted_paths := []
    store := FileState.present []
    current_path_number := 0 }

/-- The candidate used in the concrete ledger scenarios. -/
def path_cand : List String := ["1", "2", "6", "9"]

/-- The store row appended for `path_cand` in the C3 witness scenario. -/
def row_cand : List String :=
  ["2024-01-01 00:00:00", pyRepr path_cand, "0", "ok"]

/-! ## Theorems -/

/-- A successful `suffix_ok` test with a non-empty configured suffix means
the suffix is a trailing subsequence of the path. -/
theorem suffix_ok_isSuffix (suf p : List String) (h : suffix_ok suf p = true)
    (hne : suf ≠ []) : suf <:+ p := by
  unfold suffix_ok at h
  have hne' : suf.isEmpty = false := by
    cases suf with
    | nil => exact absurd rfl hne
    | cons a l => rfl
  rw [hne'] at h
  simp only [Bool.false_eq_true, if_false] at h
  split at h
  · have := eq_of_beq h
    rw [← this]
    exact List.drop_suffix _ _
  · exact absurd h (by simp)

/-- C1 (code bug evaluation) — on the constructor-accepted configuration
`pf_c1` (3×3 grid, min = max = 2, excluded 5, consistent empty prefix and
suffix), `PathFinder.__iter__` yields 24 paths while
`PathFinder._calculate_total_paths` returns 32: the counter roots its DFS
at the excluded node 5 as well, so the two disagree and the
equality required by the spec fails on the code. -/
theorem c1_total_paths_disagrees_with_iter :
    pf_c1.iter.length = 24 ∧ pf_c1.calculate_total_paths = Except.ok 32 :=
  ⟨by decide, by rfl⟩

/-- C5 (counterexample) — with the backing store failing, appending via
`LogHandler.handle_path` does NOT propagate the failure: it returns
`Except.ok` carrying (unchanged store, False); likewise a failing store
creation in `get_attempted_paths` is absorbed into `Except.ok` with the
empty key set.  The claim that these failures are fatal and propagate is
therefore false at this input. -/
theorem c5_io_failure_counterexample :
    LogHandler.handle_path false (FileState.present []) "2024-01-01 00:00:00"
      path_cand "0" "ok" = Except.ok (FileState.present [], false) ∧
    PathHandler.get_attempted_paths false FileState.missing
      = Except.ok (FileState.missing, []) :=
  ⟨rfl, rfl⟩

/-- C5 (amended) — failures to create, read, or append to the ledger
store are absorbed, not fatal: `LogHandler.handle_path` catches the
exception, leaves the store unchanged and returns `False`;
`get_attempted_paths` catches it and returns the empty key set with the
store unchanged.  Neither propagates an error, so the run continues. -/
theorem c5_io_failures_absorbed (fs : FileState) (ts : String) (p : List String)
    (rc info : String) :
    LogHandler.handle_path false fs ts p rc info = Except.ok (fs, false) ∧
    PathHandler.get_attempted_paths false fs = Except.ok (fs, []) := by
  cases fs <;>
    simp [LogHandler.handle_path, PathHandler.get_attempted_paths, csv_append,
      csv_create_with_header, csv_read]

/-- C6 (code bug evaluation) — configuration `pf_c6` (3×3 grid,
min = max = 4, suffix [9, 1]) admits zero valid paths: the enumerator
yields nothing, because node 1 is not a neighbor of node 9.  Yet
`_calculate_total_paths` returns 100 instead of raising the
"no paths satisfy constraints" error, because its hit test only checks
membership of the last node in the suffix set. -/
theorem c6_zero_valid_paths_not_reported :
    pf_c6.iter = [] ∧ pf_c6.calculate_total_paths = Except.ok 100 :=
  ⟨by decide, by rfl⟩

/-- C7 (confirmed) — on the 3×3 grid with min = max = 4, prefix [1],
suffix [9], excluded 5 — exactly the configuration produced by the
constructor for these arguments — the enumerator yields exactly the two
paths 1-2-6-9 and 1-4-8-9, in that order, and the counter reports 2. -/
theorem c7_concrete_scenario :
    mkPathFinder 3 4 4 1 ["1"] ["9"] ["5"] = Except.ok pf_c7 ∧
    pf_c7.iter = [["1", "2", "6", "9"], ["1", "4", "8", "9"]] ∧
    pf_c7.calculate_total_paths = Except.ok 2 :=
  ⟨by rfl, by decide, by rfl⟩

/-- C8 (confirmed) — `process_path` offers the candidate to the handlers
in registration order and returns the first success: if handlers A and B
would both match the candidate, registering [A, B] yields the result of A and
registering [B, A] yields the result of B. -/
theorem c8_chain_registration_order (A B : Handler) (p : List String) (total : Nat)
    (hA : (A p total).1 = true) (hB : (B p total).1 = true) :
    process_path [A, B] total p = (true, (A p total).2) ∧
    process_path [B, A] total p = (true, (B p total).2) := by
  constructor <;> simp [process_path, hA, hB]

/-- Witness for C8 at two concrete always-matching handlers. -/
theorem c8_chain_registration_order_witness :
    (handlerA path_cand 2).1 = true ∧ (handlerB path_cand 2).1 = true ∧
    (process_path [handlerA, handlerB] 2 path_cand = (true, (handlerA path_cand 2).2) ∧
     process_path [handlerB, handlerA] 2 path_cand = (true, (handlerB path_cand 2).2)) :=
  ⟨rfl, rfl, c8_chain_registration_order handlerA handlerB path_cand 2 rfl rfl⟩

/-- C9 (confirmed) — `path_max_node_distance` is threaded through the
constructor but never read during traversal: for any two values of it,
with every other constructor argument equal, the enumerator yields the
identical sequence of paths and the counter computes the identical
result. -/
theorem c9_max_node_distance_inert (gs mn mx d1 d2 : Nat)
    (pre suf excl : List String) :
    (mkPathFinder gs mn mx d1 pre suf excl).map PathFinder.iter
      = (mkPathFinder gs mn mx d2 pre suf excl).map PathFinder.iter ∧
    (mkPathFinder gs mn mx d1 pre suf excl).map PathFinder.calculate_total_paths
      = (mkPathFinder gs mn mx d2 pre suf excl).map PathFinder.calculate_total_paths := by
  unfold mkPathFinder
  cases graphs gs <;> exact ⟨rfl, rfl⟩

/-- C4 (counterexample) — a fresh candidate whose external call times
out: `ADBHandler.handle_path` returns `(False, None)` but appends NOTHING
to the ledger store (the store stays the empty row list, whose replay
contains no key), so the claim that a timed-out attempt "is recorded as a
failed attempt for that candidate in the ledger" is false at this
input. -/
theorem c4_timeout_counterexample :
    ADBHandler.handle_path cfg_adb true AdbOutcome.timeout "2024-01-01 00:00:00"
        st_fresh path_cand
      = ({ st_fresh with current_path_number := 1 }, (false, none)) ∧
    ({ st_fresh with current_path_number := 1 }).store = FileState.present [] ∧
    pyRepr path_cand ∉ collect_attempted [] := by
  refine ⟨rfl, rfl, ?_⟩
  simp [collect_attempted]

/-- C4 (amended) — when the external call for a candidate times out,
`ADBHandler.handle_path` returns `(False, None)` with the ledger store
and attempted-key set unchanged (no record is appended; the candidate
will be retried on a later run), only the attempt counter advances, and
the timeout is not fatal: the handler returns normally and the search
moves on to the next candidate. -/
theorem c4_timeout_returns_false_without_record (cfg : AdbConfig) (io_ok : Bool)
    (ts : String) (st : ADBState) (p : List String) :
    ADBHandler.handle_path cfg io_ok AdbOutcome.timeout ts st p
      = ({ st with current_path_number := st.current_path_number + 1 },
         (false, none)) := by
  by_cases h : pyRepr p ∈ st.attempted_paths <;>
    simp [ADBHandler.handle_path, h]

/-- Running the early-exit loop with a body that never succeeds reaches
the end of the list with `(false, none)`. -/
theorem first_success_eq_none (f : String → Bool × Option (List String))
    (l : List String) (h : ∀ x ∈ l, f x = (false, none)) :
    first_success f l = (false, none) := by
  induction l with
  | nil => rfl
  | cons x xs ih =>
      simp only [first_success, h x (List.mem_cons_self x xs)]
      exact ih fun y hy => h y (List.mem_cons_of_mem _ hy)

/-- With no registered handlers, the DFS helper can never report
success. -/
theorem dfs_helper_no_handlers (total : Nat) (neighbors : String → List String)
    (excl : List String) (min_len max_len : Nat) (suf : List String) :
    ∀ (fuel : Nat) (node : String) (path visited : List String),
      dfs_helper [] total neighbors excl min_len max_len suf fuel node path visited
        = (false, none) := by
  intro fuel
  induction fuel with
  | zero =>
      intro node path visited
      simp [dfs_helper, process_path]
  | succ fuel ih =>
      intro node path visited
      simp only [dfs_helper, process_path, ite_self]
      rw [if_neg (by simp : ¬(((false, none) : Bool × Option (List String)).1 = true))]
      split
      · exact first_success_eq_none _ _ fun nb _ => by
          split
          · exact ih _ _ _
          · rfl
      · rfl

/-- The whole DFS driver with no registered handlers drains the search
space and reports exhaustion. -/
theorem dfs_no_handlers (pf : PathFinder) (total : Nat) :
    pf.dfs [] total = (false, some []) := by
  have hfs : first_success
      (fun node =>
        if node ∉ pf.excluded_nodes then
          dfs_helper [] total pf.neighbors pf.excluded_nodes pf.path_min_len
            pf.path_max_len pf.path_suffix pf.path_max_len node [] []
        else (false, none)) pf.graph = (false, none) := by
    apply first_success_eq_none
    intro node _
    split
    · exact dfs_helper_no_handlers _ _ _ _ _ _ _ _ _ _
    · rfl
  unfold PathFinder.dfs
  rcases pf.pre_nodes with _ | ⟨a, l⟩
  · dsimp only
    rw [hfs]
    rfl
  · dsimp only
    rw [dfs_helper_no_handlers]
    rfl

/-- C10 (confirmed) — with an empty handler list, `process_path` returns
`(False, None)` on every candidate, and `PathFinder.dfs` exhausts the
whole search space and returns `(False, [])`. -/
theorem c10_empty_chain_exhausts (pf : PathFinder) (total : Nat) (p : List String) :
    process_path [] total p = (false, none) ∧
    pf.dfs [] total = (false, some []) :=
  ⟨rfl, dfs_no_handlers pf total⟩

/-- Unpacking a membership in the yield part of one `generate_paths`
step: the yielded path is the current path, it is long enough, and it
carries the configured suffix. -/
theorem generate_paths_yield (min_len : Nat) (suf : List String)
    (path2 p : List String)
    (h : p ∈ if min_len ≤ path2.length ∧ suffix_ok suf path2 = true
             then [path2] else []) :
    p = path2 ∧ min_len ≤ path2.length ∧ (suf ≠ [] → suf <:+ path2) := by
  split at h
  case isTrue hc =>
    rw [List.mem_singleton] at h
    subst h
    exact ⟨rfl, hc.1, fun hne => suffix_ok_isSuffix _ _ hc.2 hne⟩
  case isFalse => exact absurd h (List.not_mem_nil p)

/-- Invariant of the DFS generator `generate_paths`: provided every node
of the current path (the seeded part plus the node being visited) is in
the visited set and the current path is duplicate-free, every yielded
path extends the current path, meets the minimum length, stays within the
maximum length unless it IS the seeded path itself, ends with the
configured suffix, is duplicate-free, and contains no excluded node
outside the seeded part. -/
theorem generate_paths_spec (neighbors : String → List String) (excl : List String)
    (min_len max_len : Nat) (suf : List String) :
    ∀ (fuel : Nat) (node : String) (path visited : List String),
      (∀ x ∈ path ++ [node], x ∈ node :: visited) →
      (path ++ [node]).Nodup →
      ∀ p ∈ generate_paths neighbors excl min_len max_len suf fuel node path visited,
        (path ++ [node]) <+: p ∧ min_len ≤ p.length ∧
        (p.length ≤ max_len ∨ p = path ++ [node]) ∧
        (suf ≠ [] → suf <:+ p) ∧ p.Nodup ∧
        (∀ x ∈ p, x ∈ path ++ [node] ∨ x ∉ excl) := by
  intro fuel
  induction fuel with
  | zero =>
      intro node path visited hsub hnd p hp
      simp only [generate_paths, List.mem_append] at hp
      rcases hp with hp | hp
      · obtain ⟨rfl, hmin, hsuf⟩ := generate_paths_yield _ _ _ _ hp
        exact ⟨List.prefix_rfl, hmin, Or.inr rfl, hsuf, hnd, fun x hx => Or.inl hx⟩
      · rw [ite_self] at hp
        exact absurd hp (List.not_mem_nil p)
  | succ fuel ih =>
      intro node path visited hsub hnd p hp
      simp only [generate_paths, List.mem_append] at hp
      rcases hp with hp | hp
      · obtain ⟨rfl, hmin, hsuf⟩ := generate_paths_yield _ _ _ _ hp
        exact ⟨List.prefix_rfl, hmin, Or.inr rfl, hsuf, hnd, fun x hx => Or.inl hx⟩
      · by_cases hlt : (path ++ [node]).length < max_len
        · rw [if_pos hlt] at hp
          rw [List.mem_flatMap] at hp
          obtain ⟨nb, hnbmem, hpin⟩ := hp
          by_cases hg : nb ∉ excl ∧ nb ∉ node :: visited
          case neg =>
            rw [if_neg hg] at hpin
            exact absurd hpin (List.not_mem_nil p)
          case pos =>
            rw [if_pos hg] at hpin
            obtain ⟨hexcl, hvis⟩ := hg
            have hnbpath : nb ∉ path ++ [node] := fun hmem => hvis (hsub nb hmem)
            have hsub2 : ∀ x ∈ (path ++ [node]) ++ [nb], x ∈ nb :: node :: visited := by
              intro x hx
              rcases List.mem_append.mp hx with hx | hx
              · exact List.mem_cons_of_mem nb (hsub x hx)
              · rw [List.mem_singleton] at hx
                rw [hx]
                exact List.mem_cons_self nb (node :: visited)
            have hnd2 : ((path ++ [node]) ++ [nb]).Nodup := by
              rw [List.nodup_append]
              refine ⟨hnd, List.nodup_singleton nb, ?_⟩
              intro a ha hb
              rw [List.mem_singleton] at hb
              subst hb
              exact hnbpath ha
            obtain ⟨hpre2, hmin2, hmax2, hsuf2, hnd3, hexcl2⟩ :=
              ih nb (path ++ [node]) (node :: visited) hsub2 hnd2 p hpin
            refine ⟨(List.prefix_append _ _).trans hpre2, hmin2, ?_, hsuf2, hnd3, ?_⟩
            · rcases hmax2 with hle | heq
              · exact Or.inl hle
              · refine Or.inl ?_
                rw [heq, List.length_append, List.length_singleton]
                omega
            · intro x hx
              rcases hexcl2 x hx with hin | hout
              · rcases List.mem_append.mp hin with hin | hin
                · exact Or.inl hin
                · rw [List.mem_singleton] at hin
                  subst hin
                  exact Or.inr hexcl
              · exact Or.inr hout
        · rw [if_neg hlt] at hp
          exact absurd hp (List.not_mem_nil p)

/-- C2 (confirmed) — under a valid constraint set (prefix duplicate-free,
prefix and suffix disjoint from the excluded set, prefix and suffix each
within the maximum length, and 1 ≤ min_length ≤ max_length), every path
yielded by `PathFinder.__iter__` has pairwise-distinct nodes, contains no
excluded node, has length within [min_length, max_length], begins with
the configured prefix (trivially when it is empty), and ends with the
configured suffix whenever one is configured. -/
theorem c2_iter_paths_satisfy_constraints (pf : PathFinder)
    (hnd : pf.pre_nodes.Nodup)
    (hpre_excl : ∀ x ∈ pf.pre_nodes, x ∉ pf.excluded_nodes)
    (hsuf_excl : ∀ x ∈ pf.path_suffix, x ∉ pf.excluded_nodes)
    (hpre_len : pf.pre_nodes.length ≤ pf.path_max_len)
    (hsuf_len : pf.path_suffix.length ≤ pf.path_max_len)
    (hmin1 : 1 ≤ pf.path_min_len)
    (hminmax : pf.path_min_len ≤ pf.path_max_len) :
    ∀ p ∈ pf.iter,
      p.Nodup ∧ (∀ x ∈ p, x ∉ pf.excluded_nodes) ∧
      pf.path_min_len ≤ p.length ∧ p.length ≤ pf.path_max_len ∧
      pf.pre_nodes <+: p ∧
      (pf.path_suffix ≠ [] → pf.path_suffix <:+ p) := by
  intro p hp
  unfold PathFinder.iter at hp
  rcases hpre : pf.pre_nodes with _ | ⟨a, l⟩
  · rw [hpre] at hp
    dsimp only at hp
    rw [List.mem_flatMap] at hp
    obtain ⟨node, hnode, hpin⟩ := hp
    by_cases hne : node ∉ pf.excluded_nodes
    case neg =>
      rw [if_neg hne] at hpin
      exact absurd hpin (List.not_mem_nil p)
    case pos =>
      rw [if_pos hne] at hpin
      have hsub : ∀ x ∈ ([] : List String) ++ [node], x ∈ node :: [] := by
        intro x hx
        simpa using hx
      have hnd1 : (([] : List String) ++ [node]).Nodup := by simp
      obtain ⟨hpre1, hmin1x, hmax1, hsuf1, hnd2, hexcl1⟩ :=
        generate_paths_spec pf.neighbors pf.excluded_nodes pf.path_min_len
          pf.path_max_len pf.path_suffix pf.path_max_len node [] [] hsub hnd1 p hpin
      refine ⟨hnd2, ?_, hmin1x, ?_, ?_, hsuf1⟩
      · intro x hx
        rcases hexcl1 x hx with hin | hout
        · simp only [List.nil_append, List.mem_singleton] at hin
          rw [hin]
          exact hne
        · exact hout
      · rcases hmax1 with hle | heq
        · exact hle
        · rw [heq]
          simp only [List.nil_append, List.length_singleton]
          omega
      · exact List.nil_prefix
  · rw [hpre] at hp
    dsimp only at hp
    obtain ⟨L, z, hLz⟩ : ∃ L z, a :: l = L ++ [z] := by
      rcases List.eq_nil_or_concat (a :: l) with h | ⟨L, z, h⟩
      · exact absurd h (List.cons_ne_nil a l)
      · rw [List.concat_eq_append] at h
        exact ⟨L, z, h⟩
    rw [hLz, List.getLastD_concat, List.dropLast_concat] at hp
    have hndLz : (L ++ [z]).Nodup := by
      rw [← hLz, ← hpre]
      exact hnd
    have hsub : ∀ x ∈ L ++ [z], x ∈ z :: L := by
      intro x hx
      rcases List.mem_append.mp hx with hx | hx
      · exact List.mem_cons_of_mem z hx
      · rw [List.mem_singleton] at hx
        rw [hx]
        exact List.mem_cons_self z L
    obtain ⟨hpre1, hmin1x, hmax1, hsuf1, hnd2, hexcl1⟩ :=
      generate_paths_spec pf.neighbors pf.excluded_nodes pf.path_min_len
        pf.path_max_len pf.path_suffix pf.path_max_len z L L hsub hndLz p hp
    refine ⟨hnd2, ?_, hmin1x, ?_, ?_, hsuf1⟩
    · intro x hx
      rcases hexcl1 x hx with hin | hout
      · refine hpre_excl x ?_
        rw [hpre, hLz]
        exact hin
      · exact hout
    · rcases hmax1 with hle | heq
      · exact hle
      · rw [heq]
        have : (L ++ [z]).length = pf.pre_nodes.length := by
          rw [hpre, hLz]
        rw [this]
        exact hpre_len
    · rw [hLz]
      exact hpre1

/-- Witness for C2 at the concrete configuration `pf_c7`. -/
theorem c2_iter_paths_satisfy_constraints_witness :
    (pf_c7.pre_nodes.Nodup ∧
     (∀ x ∈ pf_c7.pre_nodes, x ∉ pf_c7.excluded_nodes) ∧
     (∀ x ∈ pf_c7.path_suffix, x ∉ pf_c7.excluded_nodes) ∧
     pf_c7.pre_nodes.length ≤ pf_c7.path_max_len ∧
     pf_c7.path_suffix.length ≤ pf_c7.path_max_len ∧
     1 ≤ pf_c7.path_min_len ∧ pf_c7.path_min_len ≤ pf_c7.path_max_len) ∧
    (∀ p ∈ pf_c7.iter,
      p.Nodup ∧ (∀ x ∈ p, x ∉ pf_c7.excluded_nodes) ∧
      pf_c7.path_min_len ≤ p.length ∧ p.length ≤ pf_c7.path_max_len ∧
      pf_c7.pre_nodes <+: p ∧
      (pf_c7.path_suffix ≠ [] → pf_c7.path_suffix <:+ p)) :=
  ⟨⟨by decide, by decide, by decide, by decide, by decide, by decide, by decide⟩,
   c2_iter_paths_satisfy_constraints pf_c7 (by decide) (by decide) (by decide)
     (by decide) (by decide) (by decide) (by decide)⟩

/-- A well-formed data row appended at the end of the store is picked up
by the replay logic of `get_attempted_paths`: its second field is among
the collected keys. -/
theorem collect_attempted_append (rows : List (List String)) (row : List String)
    (hlen : 2 ≤ row.length) (hhead : row.headD "" ≠ "timestamp") :
    row.getD 1 "" ∈ collect_attempted (rows ++ [row]) := by
  have hne : row ≠ [] := by
    intro h
    rw [h] at hlen
    simp at hlen
  cases rows with
  | nil =>
      simp only [List.nil_append, collect_attempted]
      rw [if_pos ⟨hne, hhead, hlen⟩]
      simp
  | cons r rs =>
      simp only [List.cons_append, collect_attempted]
      rw [List.mem_append]
      right
      rw [List.mem_filterMap]
      refine ⟨row, by simp, ?_⟩
      rw [if_pos hlen]

/-- C3 (confirmed) — ledger idempotence: once `LogHandler.handle_path`
has successfully appended the record for a path to the store, replaying
that same store with `get_attempted_paths` collects the canonical
serialization `str(path)` of that path, and an `ADBHandler` whose
attempted-key set was loaded from that store skips the path: its
`handle_path` returns `(False, None)` with only the attempt counter
advanced — the same result for EVERY possible device outcome, i.e. no
device attempt is dispatched and the store is untouched.  (The timestamp
hypothesis rules out a data row masquerading as the store header.) -/
theorem c3_ledger_idempotence (rows : List (List String)) (ts : String)
    (p : List String) (rc info : String) (hts : ts ≠ "timestamp")
    (store2 : FileState) (ok2 : Bool)
    (happend : LogHandler.handle_path true (FileState.present rows) ts p rc info
      = Except.ok (store2, ok2))
    (st2 : FileState) (keys : List String)
    (hload : PathHandler.get_attempted_paths true store2 = Except.ok (st2, keys))
    (cfg : AdbConfig) (io2 : Bool) (outcome : AdbOutcome) (ts2 : String)
    (st : ADBState) (hst : st.attempted_paths = keys) :
    pyRepr p ∈ keys ∧
    ADBHandler.handle_path cfg io2 outcome ts2 st p
      = ({ st with current_path_number := st.current_path_number + 1 },
         (false, none)) := by
  have happend2 : Except.ok (ε := String)
      (FileState.present (rows ++ [[ts, pyRepr p, rc, info]]), true)
      = Except.ok (store2, ok2) := happend
  injection happend2 with hpair
  rw [Prod.mk.injEq] at hpair
  obtain ⟨hstore2, hok2⟩ := hpair
  subst hstore2
  have hload2 : Except.ok (ε := String)
      (FileState.present (rows ++ [[ts, pyRepr p, rc, info]]),
       collect_attempted (rows ++ [[ts, pyRepr p, rc, info]]))
      = Except.ok (st2, keys) := hload
  injection hload2 with hpair2
  rw [Prod.mk.injEq] at hpair2
  obtain ⟨hst2, hkeys⟩ := hpair2
  subst hkeys
  have hhead : ([ts, pyRepr p, rc, info] : List String).headD "" ≠ "timestamp" := by
    simpa using hts
  have hkeymem : pyRepr p ∈ collect_attempted (rows ++ [[ts, pyRepr p, rc, info]]) :=
    collect_attempted_append rows [ts, pyRepr p, rc, info] (by simp) hhead
  have hmem : pyRepr p ∈ st.attempted_paths := by
    rw [hst]
    exact hkeymem
  exact ⟨hkeymem, by simp [ADBHandler.handle_path, hmem]⟩

/-- Witness for C3: append the candidate to an empty store, reload, and
offer the candidate again — it is skipped for every device outcome. -/
theorem c3_ledger_idempotence_witness :
    ("2024-01-01 00:00:00" ≠ "timestamp") ∧
    (LogHandler.handle_path true (FileState.present []) "2024-01-01 00:00:00"
       path_cand "0" "ok" = Except.ok (FileState.present [row_cand], true)) ∧
    (PathHandler.get_attempted_paths true (FileState.present [row_cand])
       = Except.ok (FileState.present [row_cand], [pyRepr path_cand])) ∧
    (pyRepr path_cand ∈ [pyRepr path_cand] ∧
     ADBHandler.handle_path cfg_adb true (AdbOutcome.completed 0 "xyz") "t2"
         { attempted_paths := [pyRepr path_cand]
           store := FileState.present [row_cand]
           current_path_number := 0 } path_cand
       = ({ attempted_paths := [pyRepr path_cand]
            store := FileState.present [row_cand]
            current_path_number := 0 + 1 }, (false, none))) :=
  ⟨by decide, rfl, rfl,
   c3_ledger_idempotence [] "2024-01-01 00:00:00" path_cand "0" "ok" (by decide)
     _ _ rfl _ _ rfl cfg_adb true (AdbOutcome.completed 0 "xyz") "t2" _ rfl⟩

/-- Fuel irrelevance for the enumerator: any fuel covering the remaining
depth `max_len - (path.length + 1)` allowed by the recursion guard gives
the same yields, so passing fuel `max_len` at the entry points (where the
current path is empty or shorter than the prefix) reproduces the
guard-only bound exactly. -/
theorem generate_paths_fuel_irrelevant (neighbors : String → List String)
    (excl : List String) (min_len max_len : Nat) (suf : List String) :
    ∀ (f1 f2 : Nat) (node : String) (path visited : List String),
      max_len ≤ path.length + 1 + f1 → max_len ≤ path.length + 1 + f2 →
      generate_paths neighbors excl min_len max_len suf f1 node path visited
        = generate_paths neighbors excl min_len max_len suf f2 node path visited := by
  intro f1
  induction f1 with
  | zero =>
      intro f2 node path visited h1 h2
      have hguard : ¬((path ++ [node]).length < max_len) := by
        rw [List.length_append, List.length_singleton]
        omega
      cases f2 with
      | zero => rfl
      | succ m =>
          simp only [generate_paths]
          rw [if_neg hguard, if_neg hguard]
  | succ n ih =>
      intro f2 node path visited h1 h2
      cases f2 with
      | zero =>
          have hguard : ¬((path ++ [node]).length < max_len) := by
            rw [List.length_append, List.length_singleton]
            omega
          simp only [generate_paths]
          rw [if_neg hguard, if_neg hguard]
      | succ m =>
          simp only [generate_paths]
          congr 1
          by_cases hguard : (path ++ [node]).length < max_len
          · rw [if_pos hguard, if_pos hguard]
            apply List.flatMap_congr
            intro nb _
            by_cases hok : nb ∉ excl ∧ nb ∉ node :: visited
            · rw [if_pos hok, if_pos hok]
              apply ih
              · rw [List.length_append, List.length_singleton]
                omega
              · rw [List.length_append, List.length_singleton]
                omega
            · rw [if_neg hok, if_neg hok]
          · rw [if_neg hguard, if_neg hguard]

/-- Fuel irrelevance for the counter, under the same depth bound. -/
theorem dfs_counter_fuel_irrelevant (neighbors : String → List String)
    (excl : List String) (min_len max_len : Nat) (sufSet : List String) :
    ∀ (f1 f2 : Nat) (node : String) (path visited : List String),
      max_len ≤ path.length + 1 + f1 → max_len ≤ path.length + 1 + f2 →
      dfs_counter neighbors excl min_len max_len sufSet f1 node path visited
        = dfs_counter neighbors excl min_len max_len sufSet f2 node path visited := by
  intro f1
  induction f1 with
  | zero =>
      intro f2 node path visited h1 h2
      have hguard : ¬((path ++ [node]).length < max_len) := by
        rw [List.length_append, List.length_singleton]
        omega
      cases f2 with
      | zero => rfl
      | succ m =>
          simp only [dfs_counter]
          rw [if_neg hguard, if_neg hguard]
  | succ n ih =>
      intro f2 node path visited h1 h2
      cases f2 with
      | zero =>
          have hguard : ¬((path ++ [node]).length < max_len) := by
            rw [List.length_append, List.length_singleton]
            omega
          simp only [dfs_counter]
          rw [if_neg hguard, if_neg hguard]
      | succ m =>
          simp only [dfs_counter]
          congr 1
          by_cases hguard : (path ++ [node]).length < max_len
          · rw [if_pos hguard, if_pos hguard]
            congr 1
            apply List.map_congr_left
            intro nb _
            by_cases hok : nb ∉ excl ∧ nb ∉ visited.insert node
            · rw [if_pos hok, if_pos hok]
              apply ih
              · rw [List.length_append, List.length_singleton]
                omega
              · rw [List.length_append, List.length_singleton]
                omega
            · rw [if_neg hok, if_neg hok]
          · rw [if_neg hguard, if_neg hguard]

/-- The early-exit loop only depends on the pointwise behavior of its
body. -/
theorem first_success_congr (f g : String → Bool × Option (List String))
    (l : List String) (h : ∀ x ∈ l, f x = g x) :
    first_success f l = first_success g l := by
  induction l with
  | nil => rfl
  | cons x xs ih =>
      simp only [first_success, h x (List.mem_cons_self x xs)]
      rw [ih fun y hy => h y (List.mem_cons_of_mem x hy)]

/-- Fuel irrelevance for the searching DFS, under the same depth bound. -/
theorem dfs_helper_fuel_irrelevant (handlers : List Handler) (total : Nat)
    (neighbors : String → List String) (excl : List String)
    (min_len max_len : Nat) (suf : List String) :
    ∀ (f1 f2 : Nat) (node : String) (path visited : List String),
      max_len ≤ path.length + 1 + f1 → max_len ≤ path.length + 1 + f2 →
      dfs_helper handlers total neighbors excl min_len max_len suf f1 node path visited
        = dfs_helper handlers total neighbors excl min_len max_len suf f2 node path
          visited := by
  intro f1
  induction f1 with
  | zero =>
      intro f2 node path visited h1 h2
      have hguard : ¬((path ++ [node]).length < max_len) := by
        rw [List.length_append, List.length_singleton]
        omega
      cases f2 with
      | zero => rfl
      | succ m =>
          simp only [dfs_helper]
          rw [if_neg hguard, if_neg hguard]
  | succ n ih =>
      intro f2 node path visited h1 h2
      cases f2 with
      | zero =>
          have hguard : ¬((path ++ [node]).length < max_len) := by
            rw [List.length_append, List.length_singleton]
            omega
          simp only [dfs_helper]
          rw [if_neg hguard, if_neg hguard]
      | succ m =>
          simp only [dfs_helper]
          congr 1
          by_cases hguard : (path ++ [node]).length < max_len
          · rw [if_pos hguard, if_pos hguard]
            apply first_success_congr
            intro nb _
            by_cases hok : nb ∉ excl ∧ nb ∉ node :: visited
            · rw [if_pos hok, if_pos hok]
              apply ih
              · rw [List.length_append, List.length_singleton]
                omega
              · rw [List.length_append, List.length_singleton]
                omega
            · rw [if_neg hok, if_neg hok]
          · rw [if_neg hguard, if_neg hguard]
